import Mathlib

/-!
Verification development for the TriageSense conversational triage service
(`app.py`).  The keyword classifier is embedded as a pure function; the two
endpoint handlers (`/triage`, `/converse`) are embedded as state transformers
over an explicit database record, parametrised by the outcomes of the two
external collaborators (the language-model provider and the SQLite store),
which the code reaches through fallible calls.
-/

/-! ## String helpers mirroring the Python primitives used by the code -/

/-- ASCII lowercase of one character, as CPython's `str.lower` acts on the
ASCII range used by every keyword in the tables. -/
def lowerChar (c : Char) : Char :=
  if 65 ≤ c.toNat ∧ c.toNat ≤ 90 then Char.ofNat (c.toNat + 32) else c

/-- Python `text.lower()`. -/
def pyLower (s : String) : String := ⟨s.data.map lowerChar⟩

/-- Python `text.strip()`: drop whitespace from both ends. -/
def pyStrip (s : String) : String :=
  ⟨((s.data.dropWhile Char.isWhitespace).reverse.dropWhile Char.isWhitespace).reverse⟩

/-- Whether `pat` starts the list `t` (helper for substring containment). -/
def startsWithChars : List Char → List Char → Bool
  | _, [] => true
  | [], _ :: _ => false
  | a :: as, b :: bs => a == b && startsWithChars as bs

/-- Whether `pat` occurs contiguously inside `t`. -/
def containsChars : List Char → List Char → Bool
  | [], pat => startsWithChars [] pat
  | a :: rest, pat => startsWithChars (a :: rest) pat || containsChars rest pat

/-- Python `pat in text` on strings: substring containment. -/
def strContains (text pat : String) : Bool := containsChars text.data pat.data

/-- An ASCII single-quote character, used inside the reason strings the code
builds with f-strings. -/
def quoteChar : String := String.singleton (Char.ofNat 39)

/-! ## Classifier (`determine_triage_level`, app.py lines 108-134) -/

def EMERGENCY_KEYWORDS : List String :=
  ["chest pain", "not breathing", "severe shortness", "shortness of breath",
   "difficulty breathing", "unconscious", "faint", "fainting", "severe bleeding",
   "stroke", "face droop", "slurred speech", "sudden weakness", "seizure", "anaphylaxis"]

def URGENT_KEYWORDS : List String :=
  ["high fever", "fever 39", "fever 38.5", "persistent vomiting", "severe pain",
   "worsening", "progressive", "rapidly", "heavy", "dehydration", "very weak",
   "cannot hold down", "difficulty speaking", "confusion"]

def mild_indicators : List String :=
  ["runny nose", "mild sore", "mild cough", "sore throat", "sneezing", "congestion",
   "nasal", "itchy eyes", "minor headache", "slight cough", "low-grade fever",
   "1 day", "2 days"]

def emergencyReason (k : String) : String :=
  "Contains emergency sign/keyword: " ++ quoteChar ++ k ++ quoteChar ++ ". Immediate evaluation recommended."

def urgentReason (k : String) : String :=
  "Contains concerning feature: " ++ quoteChar ++ k ++ quoteChar ++ ", consider urgent assessment."

def selfCareReason : String :=
  "Symptoms appear mild; self-care and watchful waiting may be appropriate."

def nonUrgentReason : String :=
  "No immediate warning signs detected; consider primary care or self-care as appropriate."

/-- Python `(symptoms_text or "")`: `None` and the empty string are both
falsy and collapse to `""`; any other string passes through. -/
def pyOrEmpty : Option String → String
  | none => ""
  | some s => if s = "" then "" else s

/-- The keyword classifier, app.py lines 121-134.  The Python loops
`for k in LIST: if k in text: return ...` return on the first matching
keyword, which `List.find?` captures. -/
def determine_triage_level (symptoms_text : Option String) : String × String :=
  let text := pyLower (pyOrEmpty symptoms_text)
  match EMERGENCY_KEYWORDS.find? (fun k => strContains text k) with
  | some k => ("Emergency", emergencyReason k)
  | none =>
    match URGENT_KEYWORDS.find? (fun k => strContains text k) with
    | some k => ("Urgent", urgentReason k)
    | none =>
      let mild_count := mild_indicators.countP (fun k => strContains text k)
      if 1 ≤ mild_count ∧ ¬ strContains text "severe" ∧ ¬ strContains text "worsen"
          ∧ ¬ strContains text "persistent" then
        ("Self-care", selfCareReason)
      else
        ("Non-urgent", nonUrgentReason)

/-! ## Data model and store (app.py lines 35-71, tables `submissions` and
`messages`).  Rows carry the autoincrement ids SQLite assigns; `ORDER BY id
ASC` reads are modelled by `listMessages` below, which is the ascending-id
selection on every state the operations produce (the append always uses the
next fresh id, so the row list stays id-sorted; the `DBWF` invariant records
this). -/

structure Submission where
  id : Nat
  symptoms : String
  reply : String
  triage_level : String
  triage_reason : String
  created_at : String
  deriving Repr, DecidableEq

structure Message where
  id : Nat
  submission_id : Nat
  role : String
  content : String
  created_at : String
  deriving Repr, DecidableEq

structure DB where
  submissions : List Submission
  messages : List Message
  nextSubmissionId : Nat
  nextMessageId : Nat
  deriving Repr, DecidableEq

def emptyDB : DB := ⟨[], [], 1, 1⟩

/-- `SELECT ... FROM submissions WHERE id = ?`. -/
def getSubmission (db : DB) (sid : Nat) : Option Submission :=
  db.submissions.find? (fun s => s.id == sid)

/-- A committed `INSERT INTO messages ...`, consuming the next autoincrement id. -/
def appendMessage (db : DB) (sid : Nat) (role content ts : String) : DB :=
  { db with
    messages := db.messages ++ [⟨db.nextMessageId, sid, role, content, ts⟩],
    nextMessageId := db.nextMessageId + 1 }

/-- `SELECT ... FROM messages WHERE submission_id = ? ORDER BY id ASC`. -/
def listMessages (db : DB) (sid : Nat) : List Message :=
  db.messages.filter (fun m => m.submission_id == sid)

/-- Well-formedness of a store state: message ids are below the autoincrement
counter and strictly increasing along the row list (so `listMessages` returns
ascending ids), and submission ids (and the submission ids messages point at)
are below the submission counter, making the next submission id fresh. -/
structure DBWF (db : DB) : Prop where
  msgIdLt : ∀ m ∈ db.messages, m.id < db.nextMessageId
  msgSorted : db.messages.Pairwise (fun a b => a.id < b.id)
  subIdLt : ∀ s ∈ db.submissions, s.id < db.nextSubmissionId
  msgSubLt : ∀ m ∈ db.messages, m.submission_id < db.nextSubmissionId

/-! ## Collaborator outcomes.  The model provider is an opaque call:
messages in, reply text out, or a provider error (spec section 1); a call to
the store can raise. -/

/-- Where the single try-block around the two `INSERT`s of `/triage`
(app.py lines 182-201) can fail: not at all; before `submission_id` is
assigned (connection failure or the `submissions` insert itself); or after it
(the seed-message insert or the commit).  The one commit sits after both
inserts, so any failure leaves both rows uncommitted. -/
inductive TriageSave where
  | ok
  | failBeforeId
  | failAfterId
  deriving Repr, DecidableEq

structure Err where
  status : Nat
  detail : String
  deriving Repr, DecidableEq

structure TriageResp where
  submission_id : Nat
  triage_reply : String
  triage_level : String
  triage_reason : String
  deriving Repr, DecidableEq

structure ConvMsg where
  id : Nat
  role : String
  content : String
  created_at : String
  deriving Repr, DecidableEq

structure ConverseResp where
  assistant_reply : String
  conversation : List ConvMsg
  deriving Repr, DecidableEq

def toConvMsg (m : Message) : ConvMsg := ⟨m.id, m.role, m.content, m.created_at⟩

def SYSTEM_INSTRUCTION : String :=
  "You are TriageSense, a professional medical triage assistant developed for educational use. " ++
  "You analyze patient-reported symptoms and produce structured, evidence-based summaries. " ++
  "Your tone is professional, calm, and clear—similar to how a licensed nurse or triage practitioner would speak. " ++
  "Avoid generic AI disclaimers, but include a single, polite reminder that the output is not medical advice. " ++
  "Always prioritize safety, clinical reasoning, and clarity. " ++
  "Use clean, bullet-based formatting. Use short paragraphs. " ++
  "Never list unnecessary causes or filler sentences. " ++
  "Ensure the response reads as a professional triage note, not a chatbot reply."

/-- The history `/converse` sends to the model (app.py lines 233-245): a
synthesized system-role entry, then every stored row of the submission in
ascending id order.  The system entry is built at query time only and is
never inserted into the `messages` table. -/
def converseModelInput (db : DB) (sid : Nat) : List (String × String) :=
  ("system", SYSTEM_INSTRUCTION) :: (listMessages db sid).map (fun m => (m.role, m.content))

/-! ## `POST /triage` (app.py lines 150-202).  The model call is passed in as
its outcome; reply extraction always produces some text (the except branch
stringifies), so the ok payload is the extracted reply. -/

def triage (db : DB) (symptoms : String) (model : Except String String)
    (save : TriageSave) (ts : String) : DB × Except Err TriageResp :=
  let symptoms_text := pyStrip symptoms
  if symptoms_text = "" then
    (db, .error ⟨400, "symptoms must be provided"⟩)
  else
    match model with
    | .error e => (db, .error ⟨500, "OpenAI API error: " ++ e⟩)
    | .ok content =>
      let lvl := determine_triage_level (some symptoms_text)
      match save with
      | .ok =>
        let sid := db.nextSubmissionId
        let db1 : DB :=
          { db with
            submissions := db.submissions ++ [⟨sid, symptoms_text, content, lvl.1, lvl.2, ts⟩],
            nextSubmissionId := sid + 1 }
        let db2 := appendMessage db1 sid "assistant" content ts
        (db2, .ok ⟨sid, content, lvl.1, lvl.2⟩)
      | .failBeforeId =>
        -- The except branch only prints, but `submission_id` was never
        -- assigned, so building the response raises UnboundLocalError and
        -- the framework answers 500.  Nothing was committed.
        (db, .error ⟨500, "UnboundLocalError: submission_id"⟩)
      | .failAfterId =>
        -- `submission_id` holds the fresh rowid, the exception is only
        -- printed, and the response is returned; the commit never ran, so
        -- neither row persists.
        (db, .ok ⟨db.nextSubmissionId, content, lvl.1, lvl.2⟩)

/-! ## `POST /converse` (app.py lines 205-290).  `userInsertOk` is the
user-message insert-and-commit (its failure is fatal, 500);
`assistantInsertOk` is the assistant-message insert-and-commit (its failure
is swallowed: the reply is still returned and only the user row persists).
The two history reads act on the in-memory state and cannot fail here. -/

def converse (db : DB) (sid : Nat) (message : String) (userInsertOk : Bool)
    (model : Except String String) (assistantInsertOk : Bool) (ts : String) :
    DB × Except Err ConverseResp :=
  match getSubmission db sid with
  | none => (db, .error ⟨404, "Submission not found"⟩)
  | some _ =>
    let user_msg := pyStrip message
    if user_msg = "" then
      (db, .error ⟨400, "message must be provided"⟩)
    else if !userInsertOk then
      (db, .error ⟨500, "DB save error"⟩)
    else
      let db1 := appendMessage db sid "user" user_msg ts
      match model with
      | .error e => (db1, .error ⟨500, "OpenAI API error: " ++ e⟩)
      | .ok assistant_content =>
        let db2 := if assistantInsertOk
          then appendMessage db1 sid "assistant" assistant_content ts
          else db1
        let conv := (listMessages db2 sid).map toConvMsg
        (db2, .ok ⟨assistant_content, conv⟩)

/-! ## Store lemmas -/

lemma listMessages_appendMessage_same (db : DB) (sid : Nat) (r c ts : String) :
    listMessages (appendMessage db sid r c ts) sid
      = listMessages db sid ++ [⟨db.nextMessageId, sid, r, c, ts⟩] := by
  simp [listMessages, appendMessage, List.filter_append]

lemma listMessages_fresh (db : DB) (hwf : DBWF db) :
    listMessages db db.nextSubmissionId = [] := by
  rw [listMessages, List.filter_eq_nil_iff]
  intro m hm
  have h := hwf.msgSubLt m hm
  simp [Nat.ne_of_lt h]

lemma find?_id_append_new (subs : List Submission) (sub : Submission)
    (hfresh : ∀ s ∈ subs, s.id ≠ sub.id) :
    (subs ++ [sub]).find? (fun s => s.id == sub.id) = some sub := by
  induction subs with
  | nil => simp
  | cons a t ih =>
    have ha : (a.id == sub.id) = false := by
      simpa using hfresh a (List.mem_cons_self a t)
    simp only [List.cons_append, List.find?_cons, ha]
    exact ih fun s hs => hfresh s (List.mem_cons_of_mem a hs)

lemma DBWF_appendMessage (db : DB) (sid : Nat) (r c ts : String)
    (hwf : DBWF db) (hsid : sid < db.nextSubmissionId) :
    DBWF (appendMessage db sid r c ts) := by
  refine ⟨?_, ?_, ?_, ?_⟩
  · intro m hm
    simp only [appendMessage, List.mem_append, List.mem_singleton] at hm
    rcases hm with hm | hm
    · exact Nat.lt_succ_of_lt (hwf.msgIdLt m hm)
    · subst hm; exact Nat.lt_succ_self _
  · simp only [appendMessage]
    rw [List.pairwise_append]
    refine ⟨hwf.msgSorted, List.pairwise_singleton _ _, ?_⟩
    intro a ha b hb
    simp only [List.mem_singleton] at hb
    subst hb
    exact hwf.msgIdLt a ha
  · exact hwf.subIdLt
  · intro m hm
    simp only [appendMessage, List.mem_append, List.mem_singleton] at hm
    rcases hm with hm | hm
    · exact hwf.msgSubLt m hm
    · subst hm; exact hsid

lemma getSubmission_lt (db : DB) (sid : Nat) (s : Submission) (hwf : DBWF db)
    (h : getSubmission db sid = some s) : sid < db.nextSubmissionId := by
  rw [getSubmission] at h
  have hmem := List.mem_of_find?_eq_some h
  have hid := List.find?_some h
  have : s.id = sid := by simpa using hid
  subst this
  exact hwf.subIdLt s hmem

/-! ## Classifier claims -/

/-- C5: any input whose lowercased text contains an emergency keyword is
classified Emergency, with the reason citing the exact matched keyword,
whatever urgent or mild matches are also present. -/
theorem classify_emergency_priority (s : Option String) (k : String)
    (hk : k ∈ EMERGENCY_KEYWORDS)
    (hmatch : strContains (pyLower (pyOrEmpty s)) k = true) :
    ∃ k₂ ∈ EMERGENCY_KEYWORDS,
      strContains (pyLower (pyOrEmpty s)) k₂ = true ∧
      determine_triage_level s = ("Emergency", emergencyReason k₂) := by
  have hfind : ∃ k₂, EMERGENCY_KEYWORDS.find?
      (fun k => strContains (pyLower (pyOrEmpty s)) k) = some k₂ := by
    cases h : EMERGENCY_KEYWORDS.find? (fun k => strContains (pyLower (pyOrEmpty s)) k) with
    | none => exact absurd hmatch (by simpa using List.find?_eq_none.mp h k hk)
    | some x => exact ⟨x, rfl⟩
  obtain ⟨k₂, hk₂⟩ := hfind
  refine ⟨k₂, List.mem_of_find?_eq_some hk₂, List.find?_some hk₂, ?_⟩
  simp [determine_triage_level, hk₂]

/-- Witness for C5 at a concrete input that also contains the urgent keyword
"heavy" and the mild indicator "sneezing", in uppercase. -/
theorem classify_emergency_priority_witness :
    ∃ k₂ ∈ EMERGENCY_KEYWORDS,
      strContains (pyLower (pyOrEmpty (some "CHEST PAIN and heavy sneezing"))) k₂ = true ∧
      determine_triage_level (some "CHEST PAIN and heavy sneezing")
        = ("Emergency", emergencyReason k₂) :=
  classify_emergency_priority (some "CHEST PAIN and heavy sneezing") "chest pain"
    (by decide) (by decide)

/-- C9: "mild sore throat for 2 days" is classified Self-care: mild
indicators match and none of the disqualifying substrings occur. -/
theorem classify_mild_sore_throat_selfcare :
    determine_triage_level (some "mild sore throat for 2 days")
      = ("Self-care", selfCareReason) ∧
    1 ≤ mild_indicators.countP
      (fun k => strContains (pyLower "mild sore throat for 2 days") k) ∧
    strContains (pyLower "mild sore throat for 2 days") "severe" = false ∧
    strContains (pyLower "mild sore throat for 2 days") "worsen" = false ∧
    strContains (pyLower "mild sore throat for 2 days") "persistent" = false := by
  decide

/-- C3 counterexample: on "mild sore throat but symptoms are worsening" the
classifier returns the Urgent tier, not Non-urgent as the claim states. -/
theorem classify_worsening_not_nonurgent :
    (determine_triage_level (some "mild sore throat but symptoms are worsening")).1
      = "Urgent" ∧
    (determine_triage_level (some "mild sore throat but symptoms are worsening")).1
      ≠ "Non-urgent" := by
  decide

/-- C3 amended: the input does not classify as Self-care, but "worsening" is
verbatim a member of the urgent keyword list, so the result is the Urgent
tier citing "worsening", not a fall-through to Non-urgent. -/
theorem classify_worsening_urgent :
    determine_triage_level (some "mild sore throat but symptoms are worsening")
      = ("Urgent", urgentReason "worsening") ∧
    "worsening" ∈ URGENT_KEYWORDS ∧
    (determine_triage_level (some "mild sore throat but symptoms are worsening")).1
      ≠ "Self-care" := by
  decide

/-- C10: the classifier is total, `None` and the empty string are both
treated as the empty text and classified Non-urgent, and every falsy input
behaves exactly like its `(symptoms_text or "")` collapse. -/
theorem determine_triage_level_total :
    determine_triage_level none = ("Non-urgent", nonUrgentReason) ∧
    determine_triage_level (some "") = ("Non-urgent", nonUrgentReason) ∧
    ∀ o : Option String,
      determine_triage_level o = determine_triage_level (some (pyOrEmpty o)) := by
  refine ⟨by decide, by decide, ?_⟩
  intro o
  cases o with
  | none => decide
  | some s =>
    by_cases hs : s = ""
    · subst hs; decide
    · have h : pyOrEmpty (some s) = s := by simp [pyOrEmpty, hs]
      rw [h]

/-- Witness for C10 at the concrete input `none`. -/
theorem determine_triage_level_total_witness :
    determine_triage_level none = determine_triage_level (some (pyOrEmpty none)) :=
  determine_triage_level_total.2.2 none

/-! ## Endpoint claims -/

/-- A small populated store used by witnesses: one submission with its seed
assistant message. -/
def dbW : DB :=
  ⟨[⟨1, "cough", "rest and fluids", "Non-urgent", nonUrgentReason, "t0"⟩],
   [⟨1, 1, "assistant", "rest and fluids", "t0"⟩], 2, 2⟩

/-- C7: when the model call of `/triage` fails, the request fails with the
upstream 500 error and the store is left exactly as it was: no submission row
and no message row is created. -/
theorem triage_model_failure_no_persist (db : DB) (S e ts : String)
    (save : TriageSave) (hS : pyStrip S ≠ "") :
    triage db S (.error e) save ts
      = (db, .error ⟨500, "OpenAI API error: " ++ e⟩) := by
  simp [triage, hS]

/-- Witness for C7 at a concrete input. -/
theorem triage_model_failure_no_persist_witness :
    triage emptyDB "dizzy spells" (.error "timeout") TriageSave.ok "t0"
      = (emptyDB, .error ⟨500, "OpenAI API error: " ++ "timeout"⟩) :=
  triage_model_failure_no_persist emptyDB "dizzy spells" "timeout" "t0"
    TriageSave.ok (by decide)

/-- C8: `/converse` on a submission id with no submission row fails with 404
and returns the store unchanged, whatever the message text and whatever the
collaborators would have done. -/
theorem converse_unknown_submission (db : DB) (sid : Nat) (msg ts : String)
    (u a : Bool) (model : Except String String)
    (h : getSubmission db sid = none) :
    converse db sid msg u model a ts
      = (db, .error ⟨404, "Submission not found"⟩) := by
  simp [converse, h]

/-- Witness for C8: unknown id 7 against the populated store, with a blank
message and collaborators that would fail. -/
theorem converse_unknown_submission_witness :
    converse dbW 7 "  " false (.error "down") false "t1"
      = (dbW, .error ⟨404, "Submission not found"⟩) :=
  converse_unknown_submission dbW 7 "  " "t1" false false (.error "down")
    (by decide)

/-- C6: when the model call of `/converse` fails after the user message was
appended and committed, the request fails with the upstream 500 error, the
user message remains in the submission's log, and no assistant message is
added. -/
theorem converse_model_failure_keeps_user_message (db : DB) (sid : Nat)
    (msg e ts : String) (aiOk : Bool)
    (hsub : (getSubmission db sid).isSome) (hmsg : pyStrip msg ≠ "") :
    (converse db sid msg true (.error e) aiOk ts).2
      = .error ⟨500, "OpenAI API error: " ++ e⟩ ∧
    listMessages (converse db sid msg true (.error e) aiOk ts).1 sid
      = listMessages db sid
        ++ [⟨db.nextMessageId, sid, "user", pyStrip msg, ts⟩] := by
  obtain ⟨s, hs⟩ := Option.isSome_iff_exists.mp hsub
  constructor
  · simp [converse, hs, hmsg]
  · simp [converse, hs, hmsg, listMessages_appendMessage_same]

/-- Witness for C6 at a concrete input. -/
theorem converse_model_failure_keeps_user_message_witness :
    (converse dbW 1 " any better? " true (.error "down") true "t1").2
      = .error ⟨500, "OpenAI API error: " ++ "down"⟩ ∧
    listMessages (converse dbW 1 " any better? " true (.error "down") true "t1").1 1
      = listMessages dbW 1 ++ [⟨2, 1, "user", pyStrip " any better? ", "t1"⟩] :=
  converse_model_failure_keeps_user_message dbW 1 " any better? " "down" "t1" true
    (by decide) (by decide)

/-- C4: the try-block around the two `/triage` inserts intends to swallow
store failures (it logs and falls through to the return), and does so when
the failure comes after `submission_id` was assigned; but a failure before
that assignment leaves `submission_id` unbound, the return statement raises,
and the request fails with 500 instead of succeeding as the claim states. -/
theorem triage_persistence_failure_behavior :
    (triage emptyDB "headache" (.ok "advice") TriageSave.failBeforeId "t0").2
      = .error ⟨500, "UnboundLocalError: submission_id"⟩ ∧
    (triage emptyDB "headache" (.ok "advice") TriageSave.failAfterId "t0").2
      = .ok ⟨1, "advice", "Non-urgent", nonUrgentReason⟩ :=
  ⟨rfl, rfl⟩

/-- C1: a fully successful `/converse` call on an existing submission appends
exactly two messages to its log — the trimmed user message, then the
assistant reply — and returns the whole log of the submission in ascending
id order. -/
theorem converse_turn_ordering (db : DB) (sid : Nat) (msg reply ts : String)
    (hwf : DBWF db) (hsub : (getSubmission db sid).isSome)
    (hmsg : pyStrip msg ≠ "") :
    ∃ resp,
      (converse db sid msg true (.ok reply) true ts).2 = .ok resp ∧
      listMessages (converse db sid msg true (.ok reply) true ts).1 sid
        = listMessages db sid
          ++ [⟨db.nextMessageId, sid, "user", pyStrip msg, ts⟩,
              ⟨db.nextMessageId + 1, sid, "assistant", reply, ts⟩] ∧
      (listMessages (converse db sid msg true (.ok reply) true ts).1 sid).length
        = (listMessages db sid).length + 2 ∧
      resp.conversation
        = (listMessages (converse db sid msg true (.ok reply) true ts).1 sid).map
            toConvMsg ∧
      resp.conversation.Chain' (fun a b => a.id < b.id) := by
  obtain ⟨s, hs⟩ := Option.isSome_iff_exists.mp hsub
  have hsid : sid < db.nextSubmissionId := getSubmission_lt db sid s hwf hs
  have hconv : converse db sid msg true (.ok reply) true ts
      = (appendMessage (appendMessage db sid "user" (pyStrip msg) ts) sid
           "assistant" reply ts,
         .ok ⟨reply,
           (listMessages (appendMessage (appendMessage db sid "user"
              (pyStrip msg) ts) sid "assistant" reply ts) sid).map toConvMsg⟩) := by
    simp [converse, hs, hmsg]
  have hlist : listMessages (appendMessage (appendMessage db sid "user"
        (pyStrip msg) ts) sid "assistant" reply ts) sid
      = listMessages db sid
        ++ [⟨db.nextMessageId, sid, "user", pyStrip msg, ts⟩,
            ⟨db.nextMessageId + 1, sid, "assistant", reply, ts⟩] := by
    rw [listMessages_appendMessage_same, listMessages_appendMessage_same]
    simp [appendMessage]
  have hwf1 : DBWF (appendMessage db sid "user" (pyStrip msg) ts) :=
    DBWF_appendMessage db sid "user" (pyStrip msg) ts hwf hsid
  have hwf2 : DBWF (appendMessage (appendMessage db sid "user" (pyStrip msg) ts)
      sid "assistant" reply ts) :=
    DBWF_appendMessage _ sid "assistant" reply ts hwf1 hsid
  refine ⟨⟨reply,
      (listMessages (appendMessage (appendMessage db sid "user" (pyStrip msg) ts)
        sid "assistant" reply ts) sid).map toConvMsg⟩, ?_, ?_, ?_, ?_, ?_⟩
  · rw [hconv]
  · rw [hconv]; exact hlist
  · rw [hconv]; rw [hlist]; simp
  · rw [hconv]
  · have hp : (listMessages (appendMessage (appendMessage db sid "user"
        (pyStrip msg) ts) sid "assistant" reply ts) sid).Pairwise
        (fun a b => a.id < b.id) :=
      hwf2.msgSorted.sublist (List.filter_sublist _)
    exact (hp.map toConvMsg (fun _ _ h => h)).chain'

/-- Witness for C1: one turn against the populated one-submission store. -/
theorem converse_turn_ordering_witness :
    ∃ resp,
      (converse dbW 1 "any better?" true (.ok "keep resting") true "t1").2
        = .ok resp ∧
      listMessages (converse dbW 1 "any better?" true (.ok "keep resting") true "t1").1 1
        = listMessages dbW 1
          ++ [⟨2, 1, "user", pyStrip "any better?", "t1"⟩,
              ⟨3, 1, "assistant", "keep resting", "t1"⟩] ∧
      (listMessages (converse dbW 1 "any better?" true (.ok "keep resting") true "t1").1 1).length
        = (listMessages dbW 1).length + 2 ∧
      resp.conversation
        = (listMessages (converse dbW 1 "any better?" true (.ok "keep resting") true "t1").1 1).map
            toConvMsg ∧
      resp.conversation.Chain' (fun a b => a.id < b.id) :=
  converse_turn_ordering dbW 1 "any better?" "keep resting" "t1"
    ⟨by decide, by decide, by decide, by decide⟩ (by decide) (by decide)

/-- The state `/triage` leaves behind on full success: the new submission row
followed by its seed assistant message. -/
lemma triage_ok_eq (db : DB) (S R ts1 : String) (hS : pyStrip S ≠ "") :
    triage db S (.ok R) TriageSave.ok ts1
      = (appendMessage
          { db with
            submissions := db.submissions
              ++ [⟨db.nextSubmissionId, pyStrip S, R,
                  (determine_triage_level (some (pyStrip S))).1,
                  (determine_triage_level (some (pyStrip S))).2, ts1⟩],
            nextSubmissionId := db.nextSubmissionId + 1 }
          db.nextSubmissionId "assistant" R ts1,
        .ok ⟨db.nextSubmissionId, R,
          (determine_triage_level (some (pyStrip S))).1,
          (determine_triage_level (some (pyStrip S))).2⟩) := by
  simp [triage, hS]

/-- C2: triage followed by one converse turn on the returned submission id
yields a conversation whose first entry is the seed assistant message holding
the original reply, whose second entry is the trimmed user follow-up, and in
which the synthesized system-role entry never appears — whether or not the
assistant-message append of the turn succeeds. -/
theorem converse_after_triage_round_trip (db : DB) (S M R R2 ts1 ts2 : String)
    (aiOk : Bool) (hwf : DBWF db) (hS : pyStrip S ≠ "") (hM : pyStrip M ≠ "") :
    ∃ resp1 resp2,
      (triage db S (.ok R) TriageSave.ok ts1).2 = .ok resp1 ∧
      (converse (triage db S (.ok R) TriageSave.ok ts1).1 resp1.submission_id M
          true (.ok R2) aiOk ts2).2 = .ok resp2 ∧
      resp2.conversation.head? = some ⟨db.nextMessageId, "assistant", R, ts1⟩ ∧
      resp2.conversation.tail.head?
        = some ⟨db.nextMessageId + 1, "user", pyStrip M, ts2⟩ ∧
      ∀ e ∈ resp2.conversation, e.role ≠ "system" := by
  have htr := triage_ok_eq db S R ts1 hS
  set lvl := determine_triage_level (some (pyStrip S)) with hlvl
  set sub : Submission :=
    ⟨db.nextSubmissionId, pyStrip S, R, lvl.1, lvl.2, ts1⟩ with hsub
  set dbA : DB :=
    { db with
      submissions := db.submissions ++ [sub],
      nextSubmissionId := db.nextSubmissionId + 1 } with hdbA
  set dbB : DB := appendMessage dbA db.nextSubmissionId "assistant" R ts1 with hdbB
  have hget : getSubmission dbB db.nextSubmissionId = some sub := by
    have := find?_id_append_new db.submissions sub
      (fun s hs => Nat.ne_of_lt (hwf.subIdLt s hs))
    simpa [getSubmission, hdbB, hdbA, appendMessage] using this
  have hfreshA : listMessages dbA db.nextSubmissionId = [] := by
    rw [listMessages, List.filter_eq_nil_iff]
    intro m hm
    have hlt : m.submission_id < db.nextSubmissionId := hwf.msgSubLt m hm
    simp [Nat.ne_of_lt hlt]
  have hseed : listMessages dbB db.nextSubmissionId
      = [⟨db.nextMessageId, db.nextSubmissionId, "assistant", R, ts1⟩] := by
    rw [hdbB, listMessages_appendMessage_same, hfreshA]
    rfl
  have hcv : converse dbB db.nextSubmissionId M true (.ok R2) aiOk ts2
      = ((if aiOk
            then appendMessage (appendMessage dbB db.nextSubmissionId "user"
              (pyStrip M) ts2) db.nextSubmissionId "assistant" R2 ts2
            else appendMessage dbB db.nextSubmissionId "user" (pyStrip M) ts2),
          .ok ⟨R2, ((listMessages (if aiOk
            then appendMessage (appendMessage dbB db.nextSubmissionId "user"
              (pyStrip M) ts2) db.nextSubmissionId "assistant" R2 ts2
            else appendMessage dbB db.nextSubmissionId "user" (pyStrip M) ts2)
            db.nextSubmissionId).map toConvMsg)⟩) := by
    cases aiOk <;> simp [converse, hget, hM]
  have huser : listMessages (appendMessage dbB db.nextSubmissionId "user"
      (pyStrip M) ts2) db.nextSubmissionId
      = [⟨db.nextMessageId, db.nextSubmissionId, "assistant", R, ts1⟩,
         ⟨db.nextMessageId + 1, db.nextSubmissionId, "user", pyStrip M, ts2⟩] := by
    rw [listMessages_appendMessage_same, hseed]
    simp [hdbB, appendMessage]
  refine ⟨⟨db.nextSubmissionId, R, lvl.1, lvl.2⟩,
    ⟨R2, ((listMessages (if aiOk
      then appendMessage (appendMessage dbB db.nextSubmissionId "user"
        (pyStrip M) ts2) db.nextSubmissionId "assistant" R2 ts2
      else appendMessage dbB db.nextSubmissionId "user" (pyStrip M) ts2)
      db.nextSubmissionId).map toConvMsg)⟩, ?_, ?_, ?_, ?_, ?_⟩
  · rw [htr]
  · rw [htr]
    exact congrArg Prod.snd hcv
  · cases aiOk
    · simp [huser, toConvMsg]
    · simp [listMessages_appendMessage_same, huser, toConvMsg]
  · cases aiOk
    · simp [huser, toConvMsg]
    · simp [listMessages_appendMessage_same, huser, toConvMsg]
  · intro e he
    cases aiOk
    · simp [huser, toConvMsg] at he
      rcases he with (rfl | rfl) <;> simp
    · simp [listMessages_appendMessage_same, huser, toConvMsg] at he
      rcases he with (rfl | rfl | rfl) <;> simp

/-- Witness for C2: triage then one follow-up turn starting from the empty
store, with the assistant append of the turn succeeding. -/
theorem converse_after_triage_round_trip_witness :
    ∃ resp1 resp2,
      (triage emptyDB "flu symptoms" (.ok "r1") TriageSave.ok "t0").2 = .ok resp1 ∧
      (converse (triage emptyDB "flu symptoms" (.ok "r1") TriageSave.ok "t0").1
          resp1.submission_id "thank you" true (.ok "r2") true "t1").2 = .ok resp2 ∧
      resp2.conversation.head? = some ⟨1, "assistant", "r1", "t0"⟩ ∧
      resp2.conversation.tail.head? = some ⟨2, "user", pyStrip "thank you", "t1"⟩ ∧
      ∀ e ∈ resp2.conversation, e.role ≠ "system" :=
  converse_after_triage_round_trip emptyDB "flu symptoms" "thank you" "r1" "r2"
    "t0" "t1" true ⟨by decide, by decide, by decide, by decide⟩
    (by decide) (by decide)
